import Mathlib

/-!
Verification of the NovaEV "Global Market Expansion" dashboard (src/app.py).

The verifiable core of the app is the priority-weighted market scoring and
ranking engine, the telemetry feedback rules, and the startup credential
check.  Python's float arithmetic on these small decimal constants is
modelled by exact rationals (`ℚ`); decimal literals below denote the exact
rationals the source writes.
-/

namespace NovaEV

/-- One row of the mock market table (`mock_data`, src/app.py lines 29-37):
country name with its five numeric attributes. -/
structure MarketRecord where
  country : String
  ev_adoption : ℚ
  tariffs : ℚ
  charging_stations : ℚ
  china_sentiment : ℚ
  market_size : ℚ
  deriving DecidableEq, Repr

/-- The fixed 8-row reference table, transcribed column by column from the
`mock_data` dict (src/app.py lines 29-36). -/
def mock_data : List MarketRecord :=
  [⟨"Norway", 80, 0, 5000, 0.8, 5⟩,
   ⟨"UK", 20, 10, 700, 0.7, 8⟩,
   ⟨"Australia", 8, 5, 300, 0.6, 6⟩,
   ⟨"Germany", 25, 10, 1500, 0.4, 9⟩,
   ⟨"Mexico", 3, 20, 200, 0.5, 6⟩,
   ⟨"India", 5, 15, 400, 0.3, 10⟩,
   ⟨"Brazil", 4, 12, 350, 0.6, 7⟩,
   ⟨"Thailand", 7, 10, 220, 0.7, 6⟩]

/-- The weight vector: one signed coefficient per market attribute
(the values of the `weights` dict, src/app.py lines 49-55). -/
structure WeightVector where
  ev_adoption : ℚ
  tariffs : ℚ
  charging_stations : ℚ
  china_sentiment : ℚ
  market_size : ℚ
  deriving DecidableEq, Repr

/-- The five UI priority labels offered by the multiselect
(src/app.py lines 44-47). -/
def priority_options : List String :=
  ["EV Adoption", "Low Import Tariffs", "Strong Infrastructure",
   "Positive China Sentiment", "Market Size"]

/-- The `weights` dict (src/app.py lines 49-55): each coefficient is its
fixed value when the corresponding UI label is in the selection, else 0. -/
def compute_weights (priority : List String) : WeightVector where
  ev_adoption := if "EV Adoption" ∈ priority then 0.4 else 0
  tariffs := if "Low Import Tariffs" ∈ priority then -0.2 else 0
  charging_stations := if "Strong Infrastructure" ∈ priority then 0.2 else 0
  china_sentiment := if "Positive China Sentiment" ∈ priority then 0.2 else 0
  market_size := if "Market Size" ∈ priority then 0.2 else 0

/-- The score of one row (the `df["Score"]` expression, src/app.py
lines 57-63): a linear combination with the fixed scalings `/100` on
charging stations and `*10` on China sentiment. -/
def score (r : MarketRecord) (w : WeightVector) : ℚ :=
  r.ev_adoption * w.ev_adoption +
  r.tariffs * w.tariffs +
  r.charging_stations / 100 * w.charging_stations +
  r.china_sentiment * 10 * w.china_sentiment +
  r.market_size * w.market_size

/-- `df["Score"] = ...` (src/app.py line 57): every row of the table paired
with its computed score; all other columns are carried over unchanged. -/
def scoreTable (l : List MarketRecord) (w : WeightVector) :
    List (MarketRecord × ℚ) :=
  l.map fun r => (r, score r w)

/-- The order used by `ranked = df.sort_values("Score", ascending=False)`
(src/app.py line 64) on rows tagged with their original position: larger
score first, ties broken by original position.  pandas' `nargsort` reverses
the column, takes a numpy argsort, and reverses again; on this 8-row frame
numpy's argsort is a stable insertion sort (arrays under 16 elements), so
the sort realises exactly this stable descending order. -/
def rankLE (a b : Nat × (MarketRecord × ℚ)) : Prop :=
  b.2.2 < a.2.2 ∨ (a.2.2 = b.2.2 ∧ a.1 ≤ b.1)

instance : DecidableRel rankLE := fun _ _ =>
  inferInstanceAs (Decidable (_ ∨ _))

instance : IsTotal (Nat × (MarketRecord × ℚ)) rankLE where
  total a b := by
    rcases lt_trichotomy a.2.2 b.2.2 with h | h | h
    · exact Or.inr (Or.inl h)
    · rcases Nat.le_total a.1 b.1 with h' | h'
      · exact Or.inl (Or.inr ⟨h, h'⟩)
      · exact Or.inr (Or.inr ⟨h.symm, h'⟩)
    · exact Or.inl (Or.inl h)

instance : IsTrans (Nat × (MarketRecord × ℚ)) rankLE where
  trans a b c hab hbc := by
    rcases hab with hab | ⟨hab, hab'⟩ <;> rcases hbc with hbc | ⟨hbc, hbc'⟩
    · exact Or.inl (lt_trans hbc hab)
    · exact Or.inl (hbc ▸ hab)
    · exact Or.inl (hab ▸ hbc)
    · exact Or.inr ⟨hab.trans hbc, hab'.trans hbc'⟩

/-- `ranked = df.sort_values("Score", ascending=False)` (src/app.py
line 64): a new ordering of the scored rows, tagged with their original
row positions, sorted by score descending with original order on ties. -/
def rank (t : List (MarketRecord × ℚ)) : List (Nat × (MarketRecord × ℚ)) :=
  List.insertionSort rankLE t.enum

/-- `ranked.head(top_n)` (src/app.py line 70): the first `n` ranked rows. -/
def top_n (ranked : List (Nat × (MarketRecord × ℚ))) (n : Nat) :
    List (Nat × (MarketRecord × ℚ)) :=
  ranked.take n

/-- The five KPI metrics of the telemetry dict (src/app.py lines 162-196). -/
inductive Metric where
  | CTR
  | CPI
  | Retention
  | Media_Sentiment
  | Engagement
  deriving DecidableEq, Repr

/-- The three feedback labels emitted by the Strategy Feedback panel
(src/app.py lines 216-223). -/
inductive Feedback where
  | momentum
  | underwhelming
  | stable
  deriving DecidableEq, Repr

/-- `telemetry["Norway"]` (src/app.py lines 163-169). -/
def norway_stats : Metric → List ℚ
  | .CTR => [1.2, 1.5, 1.8, 2.2]
  | .CPI => [20, 18, 15, 12]
  | .Retention => [30, 35, 40, 42]
  | .Media_Sentiment => [0.2, 0.25, 0.3, 0.35]
  | .Engagement => [100, 120, 140, 160]

/-- `telemetry["UK"]` (src/app.py lines 170-176). -/
def uk_stats : Metric → List ℚ
  | .CTR => [1.0, 1.2, 1.3, 1.4]
  | .CPI => [25, 24, 23, 22]
  | .Retention => [25, 28, 30, 32]
  | .Media_Sentiment => [0.1, 0.15, 0.18, 0.2]
  | .Engagement => [90, 95, 100, 105]

/-- `telemetry["Germany"]` (src/app.py lines 177-183). -/
def germany_stats : Metric → List ℚ
  | .CTR => [0.8, 0.9, 1.0, 1.1]
  | .CPI => [30, 29, 28, 27]
  | .Retention => [20, 22, 25, 26]
  | .Media_Sentiment => [0.15, 0.17, 0.18, 0.2]
  | .Engagement => [80, 85, 87, 90]

/-- The full `telemetry` dict (src/app.py lines 162-184), in its insertion
order Norway, UK, Germany. -/
def telemetry : List (String × (Metric → List ℚ)) :=
  [("Norway", norway_stats), ("UK", uk_stats), ("Germany", germany_stats)]

/-- `trend = stats[metric][-1] - stats[metric][-2]` (src/app.py line 215):
last observation minus second-to-last, via Python's negative indexing.
Every series in `telemetry` has four entries, so the (unreachable in the
program) default 0 for shorter lists is never consulted. -/
def trend (s : List ℚ) : ℚ :=
  s.getD (s.length - 1) 0 - s.getD (s.length - 2) 0

/-- The if/elif/else ladder of the Strategy Feedback panel (src/app.py
lines 216-223), branching on the metric's polarity and the trend `t`. -/
def feedback_note (metric : Metric) (t : ℚ) : Feedback :=
  if (metric ∈ [Metric.CTR, Metric.Retention, Metric.Media_Sentiment,
        Metric.Engagement] ∧ t > 0.3) ∨ (metric = Metric.CPI ∧ t < -2) then
    .momentum
  else if (metric ∈ [Metric.CTR, Metric.Retention, Metric.Media_Sentiment,
        Metric.Engagement] ∧ t < 0.1) ∨ (metric = Metric.CPI ∧ t > 1) then
    .underwhelming
  else
    .stable

/-- Everything the page computes and renders after a successful startup:
the scored ranking, its top-N truncation, the banner's top country, and
the per-region feedback labels. -/
structure Page where
  ranked : List (Nat × (MarketRecord × ℚ))
  top_table : List (Nat × (MarketRecord × ℚ))
  top_country : Option String
  notes : List (String × Feedback)
  deriving Repr

/-- The script body of src/app.py as one run: line 23 reads the API key
from the secrets store (`none` models a missing or invalid secret, in which
case lines 24-26 show an error and `st.stop()` ends the run with nothing
computed); otherwise the scoring, ranking, top-N table, banner and the
telemetry feedback all get computed. -/
def run_app (api_key : Option String) (priority : List String) (n : Nat)
    (metric : Metric) : Except String Page :=
  match api_key with
  | none => .error "❌ Missing or invalid OpenAI API key in `secrets.toml`."
  | some _ =>
    let w := compute_weights priority
    let ranked := rank (scoreTable mock_data w)
    .ok
      { ranked := ranked
        top_table := top_n ranked n
        top_country := ranked.head?.map fun x => x.2.1.country
        notes := telemetry.map fun rs =>
          (rs.1, feedback_note metric (trend (rs.2 metric))) }

/-- The weight vector produced when all five priorities are selected. -/
def w_all : WeightVector := compute_weights priority_options

/-- The Norway row of `mock_data`. -/
def norway_row : MarketRecord := ⟨"Norway", 80, 0, 5000, 0.8, 5⟩

/-- C1: the score of a record is the linear combination with the exact
scalings `/100` on charging stations and `*10` on China sentiment, and the
Norway record under priorities {EV Adoption, Market Size} scores
exactly 33. -/
theorem score_formula_and_norway_example :
    (∀ (r : MarketRecord) (w : WeightVector),
      score r w =
        r.ev_adoption * w.ev_adoption + r.tariffs * w.tariffs +
        r.charging_stations / 100 * w.charging_stations +
        r.china_sentiment * 10 * w.china_sentiment +
        r.market_size * w.market_size) ∧
    score norway_row (compute_weights ["EV Adoption", "Market Size"]) = 33 := by
  refine ⟨fun r w => rfl, ?_⟩
  simp +decide [score, norway_row, compute_weights]
  norm_num

/-- C2: each weight coefficient takes its table value exactly when the
corresponding priority label is selected, and is 0 exactly when it is
not, so nonzero coefficients occur only for selected flags. -/
theorem compute_weights_matches_table (P : List String) :
    ((compute_weights P).ev_adoption = 0.4 ↔ "EV Adoption" ∈ P) ∧
    ((compute_weights P).ev_adoption = 0 ↔ "EV Adoption" ∉ P) ∧
    ((compute_weights P).tariffs = -0.2 ↔ "Low Import Tariffs" ∈ P) ∧
    ((compute_weights P).tariffs = 0 ↔ "Low Import Tariffs" ∉ P) ∧
    ((compute_weights P).charging_stations = 0.2 ↔
      "Strong Infrastructure" ∈ P) ∧
    ((compute_weights P).charging_stations = 0 ↔
      "Strong Infrastructure" ∉ P) ∧
    ((compute_weights P).china_sentiment = 0.2 ↔
      "Positive China Sentiment" ∈ P) ∧
    ((compute_weights P).china_sentiment = 0 ↔
      "Positive China Sentiment" ∉ P) ∧
    ((compute_weights P).market_size = 0.2 ↔ "Market Size" ∈ P) ∧
    ((compute_weights P).market_size = 0 ↔ "Market Size" ∉ P) := by
  refine ⟨?_, ?_, ?_, ?_, ?_, ?_, ?_, ?_, ?_, ?_⟩ <;>
    simp only [compute_weights] <;> split_ifs with h <;> simp [h] <;> norm_num

/-- C7: unrecognized priority names have no effect: the weight vector of a
selection equals the weight vector of its restriction to the five known
labels, and hence every score is unchanged as well. -/
theorem compute_weights_ignores_unknown (P : List String) :
    compute_weights P =
      compute_weights (P.filter fun s => decide (s ∈ priority_options)) ∧
    ∀ r : MarketRecord,
      score r (compute_weights P) =
        score r (compute_weights
          (P.filter fun s => decide (s ∈ priority_options))) := by
  have hmem : ∀ s, s ∈ priority_options →
      ((s ∈ P.filter fun x => decide (x ∈ priority_options)) ↔ s ∈ P) := by
    intro s hs
    simp [List.mem_filter, hs]
  have hw : compute_weights P =
      compute_weights (P.filter fun s => decide (s ∈ priority_options)) := by
    simp only [compute_weights, WeightVector.mk.injEq]
    refine ⟨?_, ?_, ?_, ?_, ?_⟩ <;>
      exact (if_congr (hmem _ (by decide)).symm rfl rfl)
  exact ⟨hw, fun r => by rw [hw]⟩

/-- C8: scoring adds only the Score column — stripping it recovers the
source rows unchanged — and ranking returns a reordered copy (a
permutation of the position-tagged scored table), leaving the table
itself in its original order. -/
theorem rank_is_fresh_view (l : List MarketRecord) (w : WeightVector) :
    (scoreTable l w).map Prod.fst = l ∧
    (rank (scoreTable l w)).Perm (scoreTable l w).enum := by
  constructor
  · simp [scoreTable, Function.comp_def, List.map_id']
  · exact List.perm_insertionSort _ _

/-- C9: when the API-key secret is missing or invalid, the run produces
only the user-visible error and no page: no scoring, ranking, top-N table
or telemetry feedback is computed. -/
theorem missing_api_key_halts (priority : List String) (n : Nat)
    (metric : Metric) :
    run_app none priority n metric =
      .error "❌ Missing or invalid OpenAI API key in `secrets.toml`." ∧
    ∀ page : Page, run_app none priority n metric ≠ .ok page :=
  ⟨rfl, fun _ h => by simp [run_app] at h⟩

/-- Two pairwise properties of the same list combine pointwise. -/
theorem pairwise_conj {α : Type} {R S : α → α → Prop} :
    ∀ {l : List α}, l.Pairwise R → l.Pairwise S →
      l.Pairwise fun a b => R a b ∧ S a b
  | [], _, _ => List.Pairwise.nil
  | _ :: _, List.Pairwise.cons hR hRl, List.Pairwise.cons hS hSl =>
    List.Pairwise.cons (fun b hb => ⟨hR b hb, hS b hb⟩)
      (pairwise_conj hRl hSl)

/-- C3: `rank` returns a permutation of the position-tagged scored rows in
which every earlier row either has strictly greater score than every later
row or ties it with a strictly smaller original position — i.e. a stable
sort by score descending. -/
theorem rank_descending_and_stable (t : List (MarketRecord × ℚ)) :
    (rank t).Perm t.enum ∧
    (rank t).Pairwise fun a b =>
      b.2.2 < a.2.2 ∨ (a.2.2 = b.2.2 ∧ a.1 < b.1) := by
  have hperm : (rank t).Perm t.enum := List.perm_insertionSort _ _
  refine ⟨hperm, ?_⟩
  have hsorted : (rank t).Pairwise rankLE :=
    List.sorted_insertionSort rankLE t.enum
  have hnodup : ((rank t).map Prod.fst).Nodup := by
    have hp : ((rank t).map Prod.fst).Perm (t.enum.map Prod.fst) :=
      hperm.map _
    exact hp.nodup_iff.mpr (List.nodup_enum_map_fst _)
  have hne : (rank t).Pairwise fun a b => a.1 ≠ b.1 := by
    simpa [List.Nodup, List.pairwise_map] using hnodup
  refine (pairwise_conj hsorted hne).imp ?_
  rintro a b ⟨hr | ⟨he, hle⟩, hab⟩
  · exact Or.inl hr
  · exact Or.inr ⟨he, lt_of_le_of_ne hle hab⟩

/-- C4: with all five priorities selected, Norway heads the ranking of the
8-row reference table, and its score strictly exceeds that of every other
country in the table. -/
theorem all_priorities_rank_norway_first :
    (rank (scoreTable mock_data w_all)).head? =
      some (0, norway_row, score norway_row w_all) ∧
    ∀ r ∈ mock_data, r.country ≠ "Norway" →
      score r w_all < score norway_row w_all := by
  constructor
  · have hs : score norway_row w_all = 223 / 5 := by
      norm_num [score, norway_row, w_all, compute_weights, priority_options]
    rw [hs]
    have h : scoreTable mock_data w_all =
        [(⟨"Norway", 80, 0, 5000, 0.8, 5⟩, 223 / 5),
         (⟨"UK", 20, 10, 700, 0.7, 8⟩, 52 / 5),
         (⟨"Australia", 8, 5, 300, 0.6, 6⟩, 26 / 5),
         (⟨"Germany", 25, 10, 1500, 0.4, 9⟩, 68 / 5),
         (⟨"Mexico", 3, 20, 200, 0.5, 6⟩, -1 / 5),
         (⟨"India", 5, 15, 400, 0.3, 10⟩, 12 / 5),
         (⟨"Brazil", 4, 12, 350, 0.6, 7⟩, 5 / 2),
         (⟨"Thailand", 7, 10, 220, 0.7, 6⟩, 96 / 25)] := by
      simp +decide [scoreTable, mock_data, score, w_all, compute_weights,
        priority_options]
      norm_num
    rw [rank, h]
    simp only [List.enum, List.enumFrom, List.insertionSort,
      List.orderedInsert]
    norm_num [rankLE, norway_row]
  · intro r hr
    fin_cases hr <;>
      first
        | (intro h; exact absurd rfl h)
        | (intro _;
           norm_num [score, norway_row, w_all, compute_weights,
             priority_options])

/-- Witness for C4: the UK row is in the table, is not Norway, and scores
strictly below Norway under the all-priorities weights. -/
theorem all_priorities_rank_norway_first_witness :
    (⟨"UK", 20, 10, 700, 0.7, 8⟩ : MarketRecord) ∈ mock_data ∧
    (⟨"UK", 20, 10, 700, 0.7, 8⟩ : MarketRecord).country ≠ "Norway" ∧
    score ⟨"UK", 20, 10, 700, 0.7, 8⟩ w_all < score norway_row w_all :=
  ⟨by simp [mock_data], by simp,
    all_priorities_rank_norway_first.2 _ (by simp [mock_data]) (by simp)⟩

/-- For the four higher-is-better metrics, the feedback label is momentum
exactly when the trend exceeds 0.3, underwhelming exactly when it is below
0.1, and stable exactly in between. -/
theorem feedback_note_higher_is_better (m : Metric) (hm : m ≠ Metric.CPI)
    (t : ℚ) :
    (feedback_note m t = .momentum ↔ 0.3 < t) ∧
    (feedback_note m t = .underwhelming ↔ t < 0.1) ∧
    (feedback_note m t = .stable ↔ 0.1 ≤ t ∧ t ≤ 0.3) := by
  have hform : feedback_note m t =
      if 0.3 < t then .momentum else if t < 0.1 then .underwhelming
      else .stable := by
    cases m
    case CPI => exact absurd rfl hm
    all_goals simp +decide [feedback_note]
  rw [hform]
  split_ifs with h1 h2 <;>
    refine ⟨?_, ?_, ?_⟩ <;>
      simp <;>
        first
          | linarith
          | (intro h; linarith)
          | (constructor <;> linarith)

/-- For the lower-is-better metric CPI, the feedback label is momentum
exactly when the trend is below −2, underwhelming exactly when it exceeds
1, and stable exactly in between. -/
theorem feedback_note_cpi_rules (t : ℚ) :
    (feedback_note .CPI t = .momentum ↔ t < -2) ∧
    (feedback_note .CPI t = .underwhelming ↔ 1 < t) ∧
    (feedback_note .CPI t = .stable ↔ -2 ≤ t ∧ t ≤ 1) := by
  have hform : feedback_note .CPI t =
      if t < -2 then .momentum else if 1 < t then .underwhelming
      else .stable := by
    simp +decide [feedback_note]
  rw [hform]
  split_ifs with h1 h2 <;>
    refine ⟨?_, ?_, ?_⟩ <;>
      simp <;>
        first
          | linarith
          | (intro h; linarith)
          | (constructor <;> linarith)

/-- C5: the feedback label follows the directional thresholds for every
trend value — momentum iff trend > 0.3, underwhelming iff trend < 0.1 for
the higher-is-better metrics, momentum iff trend < −2, underwhelming iff
trend > 1 for CPI, stable otherwise — and on the telemetry data the UK CPI
series yields stable (trend −1) while the Norway CTR series yields
momentum (trend 0.4). -/
theorem telemetry_feedback_rules :
    (∀ t : ℚ,
      ((feedback_note .CTR t = .momentum ↔ 0.3 < t) ∧
       (feedback_note .CTR t = .underwhelming ↔ t < 0.1) ∧
       (feedback_note .CTR t = .stable ↔ 0.1 ≤ t ∧ t ≤ 0.3)) ∧
      ((feedback_note .Retention t = .momentum ↔ 0.3 < t) ∧
       (feedback_note .Retention t = .underwhelming ↔ t < 0.1) ∧
       (feedback_note .Retention t = .stable ↔ 0.1 ≤ t ∧ t ≤ 0.3)) ∧
      ((feedback_note .Media_Sentiment t = .momentum ↔ 0.3 < t) ∧
       (feedback_note .Media_Sentiment t = .underwhelming ↔ t < 0.1) ∧
       (feedback_note .Media_Sentiment t = .stable ↔ 0.1 ≤ t ∧ t ≤ 0.3)) ∧
      ((feedback_note .Engagement t = .momentum ↔ 0.3 < t) ∧
       (feedback_note .Engagement t = .underwhelming ↔ t < 0.1) ∧
       (feedback_note .Engagement t = .stable ↔ 0.1 ≤ t ∧ t ≤ 0.3)) ∧
      ((feedback_note .CPI t = .momentum ↔ t < -2) ∧
       (feedback_note .CPI t = .underwhelming ↔ 1 < t) ∧
       (feedback_note .CPI t = .stable ↔ -2 ≤ t ∧ t ≤ 1))) ∧
    trend (uk_stats .CPI) = -1 ∧
    feedback_note .CPI (trend (uk_stats .CPI)) = .stable ∧
    trend (norway_stats .CTR) = 0.4 ∧
    feedback_note .CTR (trend (norway_stats .CTR)) = .momentum := by
  refine ⟨fun t =>
    ⟨feedback_note_higher_is_better .CTR
        (by intro h; exact Metric.noConfusion h) t,
      feedback_note_higher_is_better .Retention
        (by intro h; exact Metric.noConfusion h) t,
      feedback_note_higher_is_better .Media_Sentiment
        (by intro h; exact Metric.noConfusion h) t,
      feedback_note_higher_is_better .Engagement
        (by intro h; exact Metric.noConfusion h) t,
      feedback_note_cpi_rules t⟩, ?_, ?_, ?_, ?_⟩
  · norm_num [trend, uk_stats]
  · rw [show trend (uk_stats .CPI) = -1 by norm_num [trend, uk_stats]]
    exact (feedback_note_cpi_rules (-1)).2.2.mpr (by norm_num)
  · norm_num [trend, norway_stats]
  · rw [show trend (norway_stats .CTR) = 0.4 by
      norm_num [trend, norway_stats]]
    exact (feedback_note_higher_is_better .CTR
      (by intro h; exact Metric.noConfusion h) 0.4).1.mpr (by norm_num)

/-- C6: for any `n` between 3 and the number of ranked rows, `top_n`
returns exactly the first `n` rows in ranked order: it has length `n` and
prepending it to the rest reconstitutes the ranking unchanged. -/
theorem top_n_takes_first_n (ranked : List (Nat × (MarketRecord × ℚ)))
    (n : Nat) (h3 : 3 ≤ n) (hn : n ≤ ranked.length) :
    (top_n ranked n).length = n ∧
    top_n ranked n ++ ranked.drop n = ranked := by
  refine ⟨?_, ?_⟩
  · simp only [top_n, List.length_take]
    omega
  · simp only [top_n]
    exact List.take_append_drop n ranked

/-- Witness for C6: over the ranked 8-row table with all priorities
selected, `top_n … 5` is exactly the first 5 ranked rows. -/
theorem top_n_takes_first_n_witness :
    3 ≤ 5 ∧ 5 ≤ (rank (scoreTable mock_data w_all)).length ∧
    ((top_n (rank (scoreTable mock_data w_all)) 5).length = 5 ∧
      top_n (rank (scoreTable mock_data w_all)) 5 ++
        (rank (scoreTable mock_data w_all)).drop 5 =
        rank (scoreTable mock_data w_all)) := by
  have hlen : 5 ≤ (rank (scoreTable mock_data w_all)).length := by
    rw [rank, (List.perm_insertionSort rankLE _).length_eq]
    simp [scoreTable, mock_data]
  exact ⟨by norm_num, hlen, top_n_takes_first_n _ 5 (by norm_num) hlen⟩

/-- C10: with no priorities selected every weight is 0, every record
scores 0, the ranking degenerates to the original row order (all rows tie
and the stable sort leaves them in place), and every ranked row — the
displayed top row included — carries score 0. -/
theorem empty_selection_all_scores_zero :
    compute_weights [] = ⟨0, 0, 0, 0, 0⟩ ∧
    (∀ r : MarketRecord, score r (compute_weights []) = 0) ∧
    rank (scoreTable mock_data (compute_weights [])) =
      (scoreTable mock_data (compute_weights [])).enum ∧
    ((rank (scoreTable mock_data (compute_weights []))).map
      fun x => x.2.2) = List.replicate 8 0 := by
  have hz : ∀ r : MarketRecord, score r (compute_weights []) = 0 := by
    intro r
    simp [score, compute_weights]
  have h : scoreTable mock_data (compute_weights []) =
      mock_data.map fun r => (r, 0) := by
    simp [scoreTable, score, compute_weights]
  have hr : rank (scoreTable mock_data (compute_weights [])) =
      (scoreTable mock_data (compute_weights [])).enum := by
    rw [rank, h]
    simp only [mock_data, List.map, List.enum, List.enumFrom,
      List.insertionSort, List.orderedInsert]
    norm_num [rankLE]
  refine ⟨?_, hz, hr, ?_⟩
  · simp [compute_weights]
  · rw [hr, h]
    simp [mock_data, List.enum, List.enumFrom, List.replicate]

end NovaEV
